import Mathlib

/-!
Verification of `scripts/network_stream.py` (CapstoneROV/user_sensor_interface).

The file shallowly embeds the script's behaviour:

* `Config` mirrors the ROS parameters read in `NetworkStream.__init__`.
* `connect` mirrors `NetworkStream.connect` (lines 40-53): it builds the
  GStreamer command line and the `subprocess.Popen` keyword configuration.
* `handle_case` mirrors `NetworkStream.handle_case` (lines 109-132): the
  list of HTTP control-API calls issued for the given `pre`/`post` flags.
* The read loop of `NetworkStream.run` (lines 65-93) is embedded as `step`,
  a transition function on `LoopState` driven by externally supplied read
  events (`Ev`), folded by `runLoop`.
* `run` mirrors the whole of `NetworkStream.run` (lines 55-107), with the
  environment (`Env`) supplying which handshake calls raise and the read
  events; the result records the spawned process, published messages,
  the cleanup actions actually executed, and how the session ended.
-/

/-- Disposition a POSIX signal can be set to. -/
inductive SigDisposition
  | dfl
  | ign
deriving DecidableEq

/-- Model of `default_sigpipe` (line 23-24): the helper sets SIGPIPE back to
`SIG_DFL`.  In the script this function is defined but never passed to
`Popen`. -/
def default_sigpipe : SigDisposition := SigDisposition.dfl

/-- The ROS parameters read in `NetworkStream.__init__` (lines 30-37).
`exceptional_case` is `self.case` in the source (`case` is a Lean keyword). -/
structure Config where
  mode : Int
  pub_topic : String
  width : Nat
  height : Nat
  channels : Nat
  host : String
  uri_suffix : String
  exceptional_case : Int
deriving DecidableEq

/-- Frame byte length `self.width * self.height * self.channels` (line 75/77). -/
def frameSize (c : Config) : Nat := c.width * c.height * c.channels

/-- The keyword configuration of the `subprocess.Popen` calls (lines 44-46 and
51-53): the command, `stdout=sp.PIPE`, and the `preexec_fn` keyword, which the
script never passes (`none`). -/
structure PopenSpec where
  cmd : String
  stdout_pipe : Bool
  preexec_fn : Option SigDisposition
deriving DecidableEq

/-- The UDP-mode GStreamer command line (line 45) with the uri substituted. -/
def udpCmd (uri : String) : String :=
  "gst-launch-1.0 --quiet udpsrc uri=" ++ uri ++
    " close-socket=false multicast-iface=false auto-multicast=true ! application/x-rtp, payload=96 ! queue2 ! rtph264depay ! avdec_h264 ! videoconvert ! capsfilter caps=\"video/x-raw, format=BGR\" ! fdsink"

/-- The RTSP-mode GStreamer command line (line 52) with the uri substituted. -/
def rtspCmd (uri : String) : String :=
  "gst-launch-1.0 --quiet rtspsrc location=" ++ uri ++
    " ! queue2 ! rtph264depay ! avdec_h264 ! videoconvert ! capsfilter caps=\"video/x-raw, format=BGR\" ! fdsink"

/-- What `NetworkStream.connect` produces: `self.uri` and the spawned
process configuration `self.sp`. -/
structure ConnectResult where
  uri : String
  sp : PopenSpec
deriving DecidableEq

/-- Model of `NetworkStream.connect` (lines 40-53).  `mode == 0` selects the
UDP pipeline; every other mode value takes the `else` branch and builds the
RTSP pipeline.  Neither `Popen` call passes `preexec_fn`. -/
def connect (c : Config) : ConnectResult :=
  if c.mode = 0 then
    ConnectResult.mk ("udp://" ++ c.host ++ c.uri_suffix)
      (PopenSpec.mk (udpCmd ("udp://" ++ c.host ++ c.uri_suffix)) true none)
  else
    ConnectResult.mk ("rtsp://" ++ c.host ++ c.uri_suffix)
      (PopenSpec.mk (rtspCmd ("rtsp://" ++ c.host ++ c.uri_suffix)) true none)

/-- JSON values appearing in the handshake payloads. -/
inductive JVal
  | jb (b : Bool)
  | ji (n : Int)
deriving DecidableEq

/-- One HTTP call to the control API: method, url and JSON payload. -/
structure HttpCall where
  method : String
  url : String
  payload : List (String × JVal)
deriving DecidableEq

/-- The base url `'http://' + self.host + ':8000/api/v1'` (line 113). -/
def api_url (host : String) : String := "http://" ++ host ++ ":8000/api/v1"

/-- Model of `NetworkStream.handle_case` (lines 109-132): the HTTP calls it
issues for the given `pre`/`post` flags.  Nothing is issued unless
`self.case == 1`.  The `pre` step PATCHes the transponder on with range 40 and
PUTs streamtype value 2 (hardcoded, per the comment "Set the data stream type
to RTSP"); the `post` step PATCHes the transponder off. -/
def handle_case (c : Config) (pre : Bool) (post : Bool) : List HttpCall :=
  if c.exceptional_case = 1 then
    (if pre then
      [ HttpCall.mk "PATCH" (api_url c.host ++ "/transponder")
          [("enable", JVal.jb true), ("sonar_range", JVal.ji 40)],
        HttpCall.mk "PUT" (api_url c.host ++ "/streamtype")
          [("value", JVal.ji 2)] ]
     else []) ++
    (if post then
      [ HttpCall.mk "PATCH" (api_url c.host ++ "/transponder")
          [("enable", JVal.jb false)] ]
     else [])
  else []

/-- One iteration's outside-world outcome for the read loop (lines 67-93):
either `rospy.is_shutdown()` is true at the top of the iteration, or
`select.select` reports the pipe readable and `read` returns `len` bytes
(identified abstractly by `fid`, stamped `t` by `rospy.Time.now()`, with
`convOk` telling whether `cv2_to_imgmsg` succeeds), or `select.select` times
out, or an exception caught by lines 96-101 fires during the iteration. -/
inductive Ev
  | readable (len : Nat) (fid : Nat) (t : Nat) (convOk : Bool)
  | timeout
  | shutdown
  | fault
deriving DecidableEq

/-- How the read loop ended. -/
inductive ExitPath
  | eof
  | fiveTimeouts
  | shutdownReq
  | fault
deriving DecidableEq

/-- A published `Image` message: frame identity and `header.stamp` (line 84). -/
structure FrameMsg where
  fid : Nat
  stamp : Nat
deriving DecidableEq

/-- State of the read loop: `timeout_countdown` (line 65), the messages
published so far (line 85, in order), and whether/how the loop has exited. -/
structure LoopState where
  timeout_countdown : Nat
  published : List FrameMsg
  exit : Option ExitPath
deriving DecidableEq

/-- One iteration of the read loop (lines 67-93).  After the loop has exited
further events are ignored.  On a readable pipe the countdown is reset to 0
(line 72) before the read; a short read breaks out of the loop (lines 77-78);
otherwise the frame is published unless `cv2_to_imgmsg` raised, which is only
logged (lines 82-87).  On a timeout the countdown is incremented and the loop
breaks when it reaches 5 (lines 89-93). -/
def step (c : Config) (s : LoopState) (e : Ev) : LoopState :=
  match s.exit with
  | some _ => s
  | none =>
    match e with
    | Ev.shutdown => { s with exit := some ExitPath.shutdownReq }
    | Ev.fault => { s with exit := some ExitPath.fault }
    | Ev.timeout =>
        if s.timeout_countdown + 1 = 5 then
          { s with timeout_countdown := s.timeout_countdown + 1,
                   exit := some ExitPath.fiveTimeouts }
        else
          { s with timeout_countdown := s.timeout_countdown + 1 }
    | Ev.readable len fid t convOk =>
        if len < frameSize c then
          { s with timeout_countdown := 0, exit := some ExitPath.eof }
        else if convOk then
          { s with timeout_countdown := 0,
                   published := s.published ++ [FrameMsg.mk fid t] }
        else
          { s with timeout_countdown := 0 }

/-- Initial loop state: `timeout_countdown = 0` (line 65), nothing published. -/
def initState : LoopState := LoopState.mk 0 [] none

/-- The read loop run over a finite trace of events. -/
def runLoop (c : Config) (evs : List Ev) : LoopState :=
  evs.foldl (step c) initState

/-- The outside world of one `run()` call: which pre-handshake HTTP call
raises (if any), the HTTP status codes those calls return (the script never
inspects them), the read-loop events, and whether the post-handshake call
raises. -/
structure Env where
  preRaisesAt : Option Nat
  preStatuses : List Nat
  events : List Ev
  postRaises : Bool
deriving DecidableEq

/-- Whether `self.handle_case(pre=True)` raises (line 58): only the two
`requests` calls made when `self.case == 1` can raise. -/
def preStepRaises (c : Config) (env : Env) : Bool :=
  c.exceptional_case = 1 &&
    (match env.preRaisesAt with
     | some i => i < 2
     | none => false)

/-- Whether `self.handle_case(post=True)` raises (line 105): only the single
`requests` call made when `self.case == 1` can raise. -/
def postStepRaises (c : Config) (env : Env) : Bool :=
  c.exceptional_case = 1 && env.postRaises

/-- Observable actions of the cleanup section (lines 103-107). -/
inductive CleanupAct
  | post
  | closeOut
  | kill
deriving DecidableEq

/-- The cleanup actions actually executed (lines 103-107): the post handshake
runs first when `self.case` is truthy; if it raises, the exception propagates
and `stdout.close()` / `kill()` never run. -/
def endingActs (c : Config) (env : Env) : List CleanupAct :=
  if c.exceptional_case ≠ 0 then
    if postStepRaises c env then [CleanupAct.post]
    else [CleanupAct.post, CleanupAct.closeOut, CleanupAct.kill]
  else [CleanupAct.closeOut, CleanupAct.kill]

/-- How the whole `run()` call ended. -/
inductive SessionStatus
  | abortedPre
  | running
  | finished (e : ExitPath)
  | crashedInPost (e : ExitPath)
deriving DecidableEq

/-- Everything observable about one `run()` call. -/
structure RunResult where
  preCalls : List HttpCall
  spawned : Option ConnectResult
  published : List FrameMsg
  postCalls : List HttpCall
  cleanup : List CleanupAct
  status : SessionStatus
deriving DecidableEq

/-- Model of `NetworkStream.run` (lines 55-107).  If the pre handshake raises,
the exception is logged and `run` returns before `connect` (lines 59-61).
Otherwise the pipeline is spawned, the loop runs over the events; if the trace
is exhausted without an exit the session is still `running`.  On loop exit the
cleanup section runs: `handle_case(post=True)` first when `self.case` is
truthy (line 104-105) — unguarded, so if it raises the session crashes and the
stream is never closed nor the process killed — then `stdout.close()` and
`kill()` (lines 106-107). -/
def run (c : Config) (env : Env) : RunResult :=
  if preStepRaises c env then
    RunResult.mk ((handle_case c true false).take (env.preRaisesAt.getD 0 + 1))
      none [] [] [] SessionStatus.abortedPre
  else
    match (runLoop c env.events).exit with
    | none =>
        RunResult.mk
          (if c.exceptional_case ≠ 0 then handle_case c true false else [])
          (some (connect c)) (runLoop c env.events).published
          [] [] SessionStatus.running
    | some e =>
        RunResult.mk
          (if c.exceptional_case ≠ 0 then handle_case c true false else [])
          (some (connect c)) (runLoop c env.events).published
          (if c.exceptional_case ≠ 0 then handle_case c false true else [])
          (endingActs c env)
          (if postStepRaises c env then SessionStatus.crashedInPost e
           else SessionStatus.finished e)

/-- Configuration of the scenario in the spec (section 8): UDP mode,
640x480x3, no exceptional case. -/
def scenarioCfg : Config :=
  Config.mk 0 "camera" 640 480 3 "10.0.0.1" ":5600" 0

/-- The spec scenario "4 timeouts then 1 successful read then 5 timeouts". -/
def scenario_4_1_5 : List Ev :=
  List.replicate 4 Ev.timeout ++ [Ev.readable 921600 0 100 true] ++
    List.replicate 5 Ev.timeout

/-- The spec scenario "10 consecutive 921600-byte buffers". -/
def scenario10 : List Ev :=
  (List.range 10).map (fun i => Ev.readable 921600 i (100 + i) true)

/-- The messages the 10-buffer scenario should publish, in read order. -/
def scenario10Msgs : List FrameMsg :=
  (List.range 10).map (fun i => FrameMsg.mk i (100 + i))

/-! ## Helper lemmas about the read loop -/

/-- Once the loop has exited, further events change nothing. -/
lemma step_exited (c : Config) (s : LoopState) (e : Ev) (ex : ExitPath)
    (h : s.exit = some ex) : step c s e = s := by
  unfold step
  rw [h]

/-- Once the loop has exited, folding any remaining events changes nothing. -/
lemma foldl_exited (c : Config) (l : List Ev) (s : LoopState) (ex : ExitPath)
    (h : s.exit = some ex) : List.foldl (step c) s l = s := by
  induction l with
  | nil => rfl
  | cons e t ih => rw [List.foldl_cons, step_exited c s e ex h, ih]

/-- Characterisation of one live step on a readable pipe. -/
lemma step_readable (c : Config) (cd : Nat) (pub : List FrameMsg)
    (len fid t : Nat) (convOk : Bool) :
    step c (LoopState.mk cd pub none) (Ev.readable len fid t convOk) =
      if len < frameSize c then LoopState.mk 0 pub (some ExitPath.eof)
      else if convOk then LoopState.mk 0 (pub ++ [FrameMsg.mk fid t]) none
      else LoopState.mk 0 pub none := by
  unfold step
  by_cases hl : len < frameSize c
  · simp [hl]
  · cases convOk <;> simp [hl]

/-- Characterisation of one live step on a select timeout. -/
lemma step_timeout (c : Config) (cd : Nat) (pub : List FrameMsg) :
    step c (LoopState.mk cd pub none) Ev.timeout =
      if cd + 1 = 5 then LoopState.mk (cd + 1) pub (some ExitPath.fiveTimeouts)
      else LoopState.mk (cd + 1) pub none := by
  unfold step
  by_cases h5 : cd + 1 = 5 <;> simp [h5]

/-- Five consecutive timeouts from a live state with countdown 0 exit the
loop through the five-timeout path. -/
lemma foldl_timeout5 (c : Config) (pub : List FrameMsg) :
    List.foldl (step c) (LoopState.mk 0 pub none) (List.replicate 5 Ev.timeout) =
      LoopState.mk 5 pub (some ExitPath.fiveTimeouts) := rfl

/-- If folding a trace from a live state ends in the five-timeout exit, then
the trace either opens with enough timeouts to finish the current streak, or
contains a five-timeout run entered from a live state with countdown 0. -/
lemma exit_five_decomp (c : Config) :
    ∀ (evs : List Ev) (s : LoopState), s.exit = none →
      (List.foldl (step c) s evs).exit = some ExitPath.fiveTimeouts →
      (∃ rest, evs = List.replicate (5 - s.timeout_countdown) Ev.timeout ++ rest) ∨
      (∃ p rest, evs = p ++ List.replicate 5 Ev.timeout ++ rest ∧
        (List.foldl (step c) s p).exit = none ∧
        (List.foldl (step c) s p).timeout_countdown = 0) := by
  intro evs
  induction evs with
  | nil =>
    intro s hs hf
    rw [List.foldl_nil, hs] at hf
    exact absurd hf (by simp)
  | cons e rest ih =>
    intro s hs hf
    obtain ⟨cd, pub, ex⟩ := s
    have hex : ex = none := hs
    subst hex
    rw [List.foldl_cons] at hf
    cases e with
    | shutdown =>
      rw [show step c (LoopState.mk cd pub none) Ev.shutdown =
            LoopState.mk cd pub (some ExitPath.shutdownReq) from rfl,
          foldl_exited c rest _ ExitPath.shutdownReq rfl] at hf
      exact absurd hf (by simp)
    | fault =>
      rw [show step c (LoopState.mk cd pub none) Ev.fault =
            LoopState.mk cd pub (some ExitPath.fault) from rfl,
          foldl_exited c rest _ ExitPath.fault rfl] at hf
      exact absurd hf (by simp)
    | readable len fid t convOk =>
      rw [step_readable] at hf
      by_cases hl : len < frameSize c
      · rw [if_pos hl, foldl_exited c rest _ ExitPath.eof rfl] at hf
        exact absurd hf (by simp)
      · rw [if_neg hl] at hf
        cases convOk with
        | true =>
          rw [if_pos rfl] at hf
          rcases ih (LoopState.mk 0 (pub ++ [FrameMsg.mk fid t]) none) rfl hf with
            ⟨rest', hr⟩ | ⟨p, rest', hr, hlive, hcd⟩
          · refine Or.inr ⟨[Ev.readable len fid t true], rest', ?_, ?_, ?_⟩
            · simpa using hr
            · simp [List.foldl_cons, step_readable, hl]
            · simp [List.foldl_cons, step_readable, hl]
          · refine Or.inr ⟨Ev.readable len fid t true :: p, rest', by simp [hr], ?_, ?_⟩
            · rw [List.foldl_cons, step_readable, if_neg hl, if_pos rfl]
              exact hlive
            · rw [List.foldl_cons, step_readable, if_neg hl, if_pos rfl]
              exact hcd
        | false =>
          rw [if_neg (by simp)] at hf
          rcases ih (LoopState.mk 0 pub none) rfl hf with
            ⟨rest', hr⟩ | ⟨p, rest', hr, hlive, hcd⟩
          · refine Or.inr ⟨[Ev.readable len fid t false], rest', ?_, ?_, ?_⟩
            · simpa using hr
            · simp [List.foldl_cons, step_readable, hl]
            · simp [List.foldl_cons, step_readable, hl]
          · refine Or.inr ⟨Ev.readable len fid t false :: p, rest', by simp [hr], ?_, ?_⟩
            · rw [List.foldl_cons, step_readable, if_neg hl, if_neg (by simp)]
              exact hlive
            · rw [List.foldl_cons, step_readable, if_neg hl, if_neg (by simp)]
              exact hcd
    | timeout =>
      rw [step_timeout] at hf
      by_cases h5 : cd + 1 = 5
      · refine Or.inl ⟨rest, ?_⟩
        have hcd : cd = 4 := by omega
        subst hcd
        rfl
      · rw [if_neg h5] at hf
        rcases ih (LoopState.mk (cd + 1) pub none) rfl hf with
          ⟨rest', hr⟩ | ⟨p, rest', hr, hlive, hcd⟩
        · by_cases hcd5 : cd < 5
          · refine Or.inl ⟨rest', ?_⟩
            rw [hr]
            have h54 : 5 - cd = (5 - (cd + 1)) + 1 := by omega
            rw [h54, List.replicate_succ, List.cons_append]
          · refine Or.inl ⟨Ev.timeout :: rest, ?_⟩
            have h50 : 5 - cd = 0 := by omega
            rw [h50]
            rfl
        · refine Or.inr ⟨Ev.timeout :: p, rest', by simp [hr], ?_, ?_⟩
          · rw [List.foldl_cons, step_timeout, if_neg h5]
            exact hlive
          · rw [List.foldl_cons, step_timeout, if_neg h5]
            exact hcd

/-- The loop exits through the five-timeout path exactly when the trace holds
five consecutive timeouts entered from a live state with countdown 0. -/
lemma runLoop_five_iff (c : Config) (evs : List Ev) :
    (runLoop c evs).exit = some ExitPath.fiveTimeouts ↔
      ∃ p rest, evs = p ++ List.replicate 5 Ev.timeout ++ rest ∧
        (runLoop c p).exit = none ∧ (runLoop c p).timeout_countdown = 0 := by
  constructor
  · intro h
    rcases exit_five_decomp c evs initState rfl h with ⟨rest, hr⟩ | ⟨p, rest, hr, hlive, hcd⟩
    · exact ⟨[], rest, by simpa using hr, rfl, rfl⟩
    · exact ⟨p, rest, hr, hlive, hcd⟩
  · rintro ⟨p, rest, hr, hlive, hcd⟩
    subst hr
    unfold runLoop at hlive hcd ⊢
    rw [List.foldl_append, List.foldl_append]
    rcases hM : List.foldl (step c) initState p with ⟨a, b, ex⟩
    rw [hM] at hlive hcd
    have hex : ex = none := hlive
    have ha : a = 0 := hcd
    subst hex
    subst ha
    rw [foldl_timeout5, foldl_exited c rest _ ExitPath.fiveTimeouts rfl]

/-! ## Helper lemmas about `run` -/

/-- If the pre handshake raises, `run` returns the early-abort record. -/
lemma run_preRaise (c : Config) (env : Env) (hp : preStepRaises c env = true) :
    run c env = RunResult.mk
      ((handle_case c true false).take (env.preRaisesAt.getD 0 + 1))
      none [] [] [] SessionStatus.abortedPre := by
  unfold run
  rw [if_pos hp]

/-- If the pre handshake does not raise and the trace exhausts without a loop
exit, the session is still running and no cleanup has happened. -/
lemma run_running (c : Config) (env : Env)
    (hp : preStepRaises c env = false)
    (hX : (runLoop c env.events).exit = none) :
    run c env = RunResult.mk
      (if c.exceptional_case ≠ 0 then handle_case c true false else [])
      (some (connect c)) (runLoop c env.events).published
      [] [] SessionStatus.running := by
  unfold run
  rw [hp, hX]
  rfl

/-- If the pre handshake does not raise and the loop exits, `run` performs the
cleanup section and reports how the session ended. -/
lemma run_exit (c : Config) (env : Env) (e : ExitPath)
    (hp : preStepRaises c env = false)
    (hX : (runLoop c env.events).exit = some e) :
    run c env = RunResult.mk
      (if c.exceptional_case ≠ 0 then handle_case c true false else [])
      (some (connect c)) (runLoop c env.events).published
      (if c.exceptional_case ≠ 0 then handle_case c false true else [])
      (endingActs c env)
      (if postStepRaises c env then SessionStatus.crashedInPost e
       else SessionStatus.finished e) := by
  unfold run
  rw [hp, hX]
  rfl

/-! ## Concrete configurations and environments used in scenarios -/

/-- A session with the exceptional (MBE) case enabled, RTSP mode. -/
def mbeCfg : Config := Config.mk 1 "sonar" 640 480 3 "192.168.2.42" ":8554/raw" 1

/-- MBE session whose loop faults and whose post handshake raises. -/
def c1Env : Env := Env.mk none [] [Ev.fault] true

/-- MBE session that ends by shutdown request, post handshake succeeding. -/
def c1wEnv : Env := Env.mk none [] [Ev.shutdown] false

/-- MBE session that ends by shutdown request, post handshake succeeding. -/
def c2Env : Env := Env.mk none [] [Ev.timeout, Ev.shutdown] false

/-- MBE session whose first pre-handshake call raises. -/
def c7Env : Env := Env.mk (some 0) [] [] false

/-- MBE session whose pre-handshake calls return non-2xx statuses. -/
def c10Env : Env :=
  Env.mk none [500, 404] [Ev.readable 921600 0 100 true, Ev.shutdown] false

/-- MBE-enabled config in UDP mode (mode 0). -/
def udpMbeCfg : Config := Config.mk 0 "sonar" 640 480 3 "192.168.2.42" ":5600" 1

/-- MBE-enabled config in RTSP mode (mode 1), otherwise equal to `udpMbeCfg`. -/
def rtspMbeCfg : Config := Config.mk 1 "sonar" 640 480 3 "192.168.2.42" ":5600" 1

/-- A config whose mode is neither 0 nor any designated RTSP value. -/
def c9Cfg : Config := Config.mk 7 "camera" 640 480 3 "10.0.0.1" ":5601" 0

/-! ## Claim theorems -/

/-- C1 counterexample: a session with `exceptional_case = 1` whose pipeline was
spawned and whose read loop exited through a fault, but whose post-disarm step
raises: the exception propagates out of the cleanup section, so the output
stream is never closed and the process is never killed — the teardown is not
performed, contradicting the claim that it happens on every exit path
including when the post-disarm step itself fails. -/
theorem C1_counterexample :
    (run mbeCfg c1Env).spawned = some (connect mbeCfg) ∧
    (run mbeCfg c1Env).status = SessionStatus.crashedInPost ExitPath.fault ∧
    (run mbeCfg c1Env).cleanup = [CleanupAct.post] :=
  ⟨rfl, rfl, rfl⟩

/-- C1 (amended): for every session that starts the pipeline and whose read
loop exits, the teardown (output stream closed and process killed) is
performed exactly once — provided the post-disarm step does not raise; when
`exceptional_case = 1` and the post-disarm step raises, the teardown is
skipped entirely. -/
theorem C1_teardown (c : Config) (env : Env) (e : ExitPath)
    (h : (run c env).status = SessionStatus.finished e) :
    ((run c env).cleanup).count CleanupAct.closeOut = 1 ∧
    ((run c env).cleanup).count CleanupAct.kill = 1 ∧
    (run c env).spawned = some (connect c) := by
  cases hp : preStepRaises c env with
  | true =>
    rw [run_preRaise c env hp] at h
    exact absurd h (by simp)
  | false =>
    rcases hX : (runLoop c env.events).exit with _ | e2
    · rw [run_running c env hp hX] at h
      exact absurd h (by simp)
    · rw [run_exit c env e2 hp hX] at h ⊢
      cases hpost : postStepRaises c env with
      | true =>
        rw [hpost] at h
        exact absurd h (by simp)
      | false =>
        refine ⟨?_, ?_, rfl⟩
        · show (endingActs c env).count CleanupAct.closeOut = 1
          unfold endingActs
          rw [hpost]
          by_cases hc : c.exceptional_case ≠ 0
          · rw [if_pos hc]
            decide
          · rw [if_neg hc]
            decide
        · show (endingActs c env).count CleanupAct.kill = 1
          unfold endingActs
          rw [hpost]
          by_cases hc : c.exceptional_case ≠ 0
          · rw [if_pos hc]
            decide
          · rw [if_neg hc]
            decide

/-- C1 witness: a finished MBE session whose post-disarm step succeeded has
the stream closed and the process killed exactly once. -/
theorem C1_teardown_witness :
    ((run mbeCfg c1wEnv).cleanup).count CleanupAct.closeOut = 1 ∧
    ((run mbeCfg c1wEnv).cleanup).count CleanupAct.kill = 1 ∧
    (run mbeCfg c1wEnv).spawned = some (connect mbeCfg) :=
  C1_teardown mbeCfg c1wEnv ExitPath.shutdownReq rfl

/-- C2 counterexample: in a finished MBE session the first action of the
cleanup section is the post-disarm handshake, not the close of the output
stream — the cleanup trace is post, close, kill, contradicting the claim that
close() runs first and only then the post step. -/
theorem C2_counterexample :
    (run mbeCfg c2Env).status = SessionStatus.finished ExitPath.shutdownReq ∧
    (run mbeCfg c2Env).cleanup =
      [CleanupAct.post, CleanupAct.closeOut, CleanupAct.kill] :=
  ⟨rfl, rfl⟩

/-- C2 (amended): in the ENDING phase with the exceptional-case flag truthy,
the DeviceHandshake post-step runs first and unguarded: if it does not raise,
the output stream close and process kill follow it; if it raises, the
exception escapes `run` and the close/kill never execute. -/
theorem C2_ending_order (c : Config) (env : Env) (e : ExitPath)
    (hc : c.exceptional_case ≠ 0) :
    ((run c env).status = SessionStatus.finished e →
      (run c env).cleanup =
        [CleanupAct.post, CleanupAct.closeOut, CleanupAct.kill]) ∧
    ((run c env).status = SessionStatus.crashedInPost e →
      (run c env).cleanup = [CleanupAct.post]) := by
  cases hp : preStepRaises c env with
  | true =>
    rw [run_preRaise c env hp]
    exact ⟨fun h => absurd h (by simp), fun h => absurd h (by simp)⟩
  | false =>
    rcases hX : (runLoop c env.events).exit with _ | e2
    · rw [run_running c env hp hX]
      exact ⟨fun h => absurd h (by simp), fun h => absurd h (by simp)⟩
    · rw [run_exit c env e2 hp hX]
      cases hpost : postStepRaises c env with
      | true =>
        refine ⟨fun h => absurd h (by simp), fun h => ?_⟩
        show endingActs c env = [CleanupAct.post]
        unfold endingActs
        rw [hpost, if_pos hc]
        rfl
      | false =>
        refine ⟨fun h => ?_, fun h => absurd h (by simp)⟩
        show endingActs c env =
          [CleanupAct.post, CleanupAct.closeOut, CleanupAct.kill]
        unfold endingActs
        rw [hpost, if_pos hc]
        rfl

/-- C2 witness: in a concrete finished MBE session the cleanup trace is the
post step followed by close and kill. -/
theorem C2_ending_order_witness :
    (run mbeCfg c1wEnv).cleanup =
      [CleanupAct.post, CleanupAct.closeOut, CleanupAct.kill] :=
  (C2_ending_order mbeCfg c1wEnv ExitPath.shutdownReq (by decide)).1 rfl

/-- C3 (confirmed): the timeout countdown is 0 immediately after any complete
read, increments by exactly 1 on each timeout, and the loop exits through the
five-timeout path exactly when the trace holds five consecutive timeouts
entered from a live state with countdown 0 (no intervening complete read);
the spec scenario of 4 timeouts, 1 successful read, then 5 timeouts ends via
the five-timeout exit only after the second run, with exactly one message
published. -/
theorem C3_timeout_counter (c : Config) (cd : Nat) (pub : List FrameMsg)
    (len fid t : Nat) (convOk : Bool) (evs : List Ev)
    (hlen : frameSize c ≤ len) :
    (step c (LoopState.mk cd pub none)
        (Ev.readable len fid t convOk)).timeout_countdown = 0 ∧
    (step c (LoopState.mk cd pub none) Ev.timeout).timeout_countdown = cd + 1 ∧
    ((runLoop c evs).exit = some ExitPath.fiveTimeouts ↔
      ∃ p rest, evs = p ++ List.replicate 5 Ev.timeout ++ rest ∧
        (runLoop c p).exit = none ∧ (runLoop c p).timeout_countdown = 0) ∧
    (runLoop scenarioCfg scenario_4_1_5).exit = some ExitPath.fiveTimeouts ∧
    (runLoop scenarioCfg (scenario_4_1_5.take 9)).exit = none ∧
    (runLoop scenarioCfg scenario_4_1_5).published = [FrameMsg.mk 0 100] := by
  refine ⟨?_, ?_, runLoop_five_iff c evs, rfl, rfl, rfl⟩
  · rw [step_readable, if_neg (by omega)]
    cases convOk <;> rfl
  · rw [step_timeout]
    by_cases h5 : cd + 1 = 5
    · rw [if_pos h5]
    · rw [if_neg h5]

/-- C3 witness: the scenario instance of the theorem. -/
theorem C3_timeout_counter_witness :
    (runLoop scenarioCfg scenario_4_1_5).published = [FrameMsg.mk 0 100] :=
  (C3_timeout_counter scenarioCfg 3 [] 921600 7 42 true scenario_4_1_5
    (by decide)).2.2.2.2.2

/-- C4 (code bug): the claim says the spawned pipeline process is configured
to restore the platform-default SIGPIPE disposition, and the script even
defines `default_sigpipe` for exactly that purpose — but neither `Popen` call
passes `preexec_fn`, in either transport mode, so the child inherits the
parent's disposition and the helper is dead code. -/
theorem C4_sigpipe_not_restored (c : Config) :
    (connect c).sp.preexec_fn = none ∧ default_sigpipe = SigDisposition.dfl := by
  refine ⟨?_, rfl⟩
  unfold connect
  by_cases h : c.mode = 0
  · rw [if_pos h]
  · rw [if_neg h]

/-- C5 counterexample: two configs that differ only in transport mode (UDP
mode 0 versus RTSP mode 1) issue exactly the same pre-arm calls — in
particular the streamtype value sent is 2 in both cases, so the second call
does not select a variant matching the configured transport mode. -/
theorem C5_counterexample :
    udpMbeCfg.mode = 0 ∧ rtspMbeCfg.mode = 1 ∧
    handle_case udpMbeCfg true false = handle_case rtspMbeCfg true false ∧
    (handle_case udpMbeCfg true false).get? 1 =
      some (HttpCall.mk "PUT" (api_url udpMbeCfg.host ++ "/streamtype")
        [("value", JVal.ji 2)]) :=
  ⟨rfl, rfl, rfl, rfl⟩

/-- C5 (amended): when `exceptional_case = 1`, preArm issues exactly two
control-API calls, and the second always sends streamtype value 2 (the RTSP
variant), independent of the configured transport mode. -/
theorem C5_prearm_calls (c : Config) (h : c.exceptional_case = 1) :
    handle_case c true false =
      [ HttpCall.mk "PATCH" (api_url c.host ++ "/transponder")
          [("enable", JVal.jb true), ("sonar_range", JVal.ji 40)],
        HttpCall.mk "PUT" (api_url c.host ++ "/streamtype")
          [("value", JVal.ji 2)] ] := by
  unfold handle_case
  rw [if_pos h]
  rfl

/-- C5 witness: the amended statement at a concrete MBE config. -/
theorem C5_prearm_calls_witness :
    handle_case mbeCfg true false =
      [ HttpCall.mk "PATCH" (api_url mbeCfg.host ++ "/transponder")
          [("enable", JVal.jb true), ("sonar_range", JVal.ji 40)],
        HttpCall.mk "PUT" (api_url mbeCfg.host ++ "/streamtype")
          [("value", JVal.ji 2)] ] :=
  C5_prearm_calls mbeCfg rfl

/-- C6 (confirmed): whenever the pipe is readable but yields fewer than
`width*height*channels` bytes, the loop exits immediately through the Eof
path: the short read is never retried (all later events are ignored) and no
message is published for that buffer. -/
theorem C6_short_read (c : Config) (p rest : List Ev) (len fid t : Nat)
    (convOk : Bool)
    (hlive : (runLoop c p).exit = none) (hshort : len < frameSize c) :
    runLoop c (p ++ Ev.readable len fid t convOk :: rest) =
      LoopState.mk 0 (runLoop c p).published (some ExitPath.eof) := by
  unfold runLoop at hlive ⊢
  rw [List.foldl_append, List.foldl_cons]
  rcases hM : List.foldl (step c) initState p with ⟨a, b, ex⟩
  rw [hM] at hlive
  have hex : ex = none := hlive
  subst hex
  rw [step_readable, if_pos hshort, foldl_exited c rest _ ExitPath.eof rfl]

/-- C6 witness: a 900000-byte read against the 921600-byte frame of the spec
scenario ends the session via Eof with nothing published. -/
theorem C6_short_read_witness :
    runLoop scenarioCfg [Ev.readable 900000 0 5 true] =
      LoopState.mk 0 (runLoop scenarioCfg []).published (some ExitPath.eof) :=
  C6_short_read scenarioCfg [] [] 900000 0 5 true rfl (by decide)

/-- C7 (confirmed): when `exceptional_case = 1` and the pre-arm handshake
raises, `run` aborts before any resource allocation: no pipeline process is
spawned, no frame is published, no post-disarm call is made and no cleanup
action runs. -/
theorem C7_pre_fail_no_spawn (c : Config) (env : Env)
    (_h1 : c.exceptional_case = 1) (h2 : preStepRaises c env = true) :
    (run c env).spawned = none ∧ (run c env).published = [] ∧
    (run c env).postCalls = [] ∧ (run c env).cleanup = [] ∧
    (run c env).status = SessionStatus.abortedPre := by
  rw [run_preRaise c env h2]
  exact ⟨rfl, rfl, rfl, rfl, rfl⟩

/-- C7 witness: an MBE session whose first pre-arm call raises. -/
theorem C7_pre_fail_no_spawn_witness :
    (run mbeCfg c7Env).spawned = none ∧ (run mbeCfg c7Env).published = [] ∧
    (run mbeCfg c7Env).postCalls = [] ∧ (run mbeCfg c7Env).cleanup = [] ∧
    (run mbeCfg c7Env).status = SessionStatus.abortedPre :=
  C7_pre_fail_no_spawn mbeCfg c7Env rfl (by decide)

/-- C8 (confirmed): a complete read with successful conversion appends
exactly one message, carrying that read's completion timestamp, to the end of
the published list (so publication order is read order, with no buffering or
reordering), a timeout publishes nothing, and the spec scenario of 10
consecutive complete 921600-byte buffers yields exactly the 10 expected
messages in read order with the countdown 0 after every prefix. -/
theorem C8_publish_order (c : Config) (cd : Nat) (pub : List FrameMsg)
    (len fid t : Nat) (hlen : frameSize c ≤ len) :
    (step c (LoopState.mk cd pub none) (Ev.readable len fid t true)).published =
      pub ++ [FrameMsg.mk fid t] ∧
    (step c (LoopState.mk cd pub none) Ev.timeout).published = pub ∧
    (runLoop scenarioCfg scenario10).published = scenario10Msgs ∧
    (∀ k, k ≤ 10 →
      (runLoop scenarioCfg (scenario10.take k)).timeout_countdown = 0) := by
  refine ⟨?_, ?_, rfl, by decide⟩
  · rw [step_readable, if_neg (by omega), if_pos rfl]
  · rw [step_timeout]
    by_cases h5 : cd + 1 = 5
    · rw [if_pos h5]
    · rw [if_neg h5]

/-- C8 witness: the scenario instance of the theorem. -/
theorem C8_publish_order_witness :
    (runLoop scenarioCfg scenario10).published = scenario10Msgs :=
  (C8_publish_order scenarioCfg 0 [] 921600 3 103 (by decide)).2.2.1

/-- C9 (confirmed): the transport selection is keyed solely on `mode = 0`:
mode 0 builds the UDP invocation on `udp://<host><suffix>`, and every other
mode value builds the RTSP invocation on `rtsp://<host><suffix>`. -/
theorem C9_mode_keying (c : Config) :
    (c.mode = 0 →
      connect c = ConnectResult.mk ("udp://" ++ c.host ++ c.uri_suffix)
        (PopenSpec.mk (udpCmd ("udp://" ++ c.host ++ c.uri_suffix)) true none)) ∧
    (c.mode ≠ 0 →
      connect c = ConnectResult.mk ("rtsp://" ++ c.host ++ c.uri_suffix)
        (PopenSpec.mk (rtspCmd ("rtsp://" ++ c.host ++ c.uri_suffix)) true none)) := by
  refine ⟨fun h => ?_, fun h => ?_⟩
  · unfold connect
    rw [if_pos h]
  · unfold connect
    rw [if_neg h]

/-- C9 witness: mode 7, not any designated RTSP value, still builds the RTSP
invocation. -/
theorem C9_mode_keying_witness :
    connect c9Cfg = ConnectResult.mk ("rtsp://" ++ c9Cfg.host ++ c9Cfg.uri_suffix)
      (PopenSpec.mk (rtspCmd ("rtsp://" ++ c9Cfg.host ++ c9Cfg.uri_suffix)) true none) :=
  (C9_mode_keying c9Cfg).2 (by decide)

/-- C10 (confirmed): the HTTP status codes returned by the pre-arm calls are
never inspected: the whole session result is independent of them, and when no
pre-arm call raises the pipeline is spawned exactly as on success. -/
theorem C10_http_status_ignored (c : Config) (env : Env) (sts : List Nat)
    (_h1 : c.exceptional_case = 1) (h2 : env.preRaisesAt = none) :
    run c (Env.mk env.preRaisesAt sts env.events env.postRaises) = run c env ∧
    (run c env).spawned = some (connect c) := by
  refine ⟨rfl, ?_⟩
  have hp : preStepRaises c env = false := by
    unfold preStepRaises
    rw [h2]
    simp
  rcases hX : (runLoop c env.events).exit with _ | e2
  · rw [run_running c env hp hX]
  · rw [run_exit c env e2 hp hX]

/-- C10 witness: a session whose two pre-arm calls return 500 and 404 still
spawns the pipeline, and its whole result equals the same session with any
other statuses. -/
theorem C10_http_status_ignored_witness :
    run mbeCfg (Env.mk c10Env.preRaisesAt [500, 404] c10Env.events
      c10Env.postRaises) = run mbeCfg c10Env ∧
    (run mbeCfg c10Env).spawned = some (connect mbeCfg) :=
  C10_http_status_ignored mbeCfg c10Env [500, 404] rfl rfl
